import Mathlib

/-!
Verification of the opeva backend job-dispatch control plane.

This file gives a shallow embedding, in Lean, of the job state machine,
status-write path, filesystem queue, reaper sweep, ops surface and worker
agent of the repository, and proves (or refutes) the frozen claims about
them.  Every definition mirrors the corresponding Python function in the
source tree; side effects (files, HTTP) are made explicit as state passed
in and out, and Python `dict`s are association lists.
-/

namespace Opeva

/-- JSON-ish values used in status payloads and extras
(Python dict values that the code under scrutiny actually stores). -/
inductive Val where
  | str : String → Val
  | int : Int → Val
  | bool : Bool → Val
  | null : Val
deriving DecidableEq

/-- `d.get(k)` on an association list (first match wins, as in a dict). -/
def lookupKey (k : String) : List (String × Val) → Option Val
  | [] => none
  | (k', v) :: rest => if k' = k then some v else lookupKey k rest

/-- `d.setdefault(k, v)`: keep the list unchanged when the key is present,
append the pair otherwise (insertion order at the end, as in Python). -/
def setdefaultKey (k : String) (v : Val) (m : List (String × Val)) : List (String × Val) :=
  if (lookupKey k m).isSome then m else m ++ [(k, v)]

/-- Python truthiness of an optional string (`None` and `""` are falsy). -/
def truthy : Option String → Bool
  | none => false
  | some s => !(s == "")

/-- Python `a or b` on optional strings (falsy `a` falls through to `b`). -/
def orTruthy (a b : Option String) : Option String :=
  if truthy a then a else b

/-- Embed an optional string as a JSON value (`None` becomes `null`). -/
def optStrVal : Option String → Val
  | none => Val.null
  | some s => Val.str s

/-! ## State machine (`app/status.py`) -/

/-- The `JobStatus` enumeration of `app/status.py`. -/
inductive JobStatus where
  | launching
  | queued
  | dispatched
  | running
  | finished
  | failed
  | stopRequested
  | stopped
  | notFound
  | unknown
  | canceled
deriving DecidableEq, Fintype

/-- The string value of each enum member. -/
def JobStatus.value : JobStatus → String
  | .launching => "launching"
  | .queued => "queued"
  | .dispatched => "dispatched"
  | .running => "running"
  | .finished => "finished"
  | .failed => "failed"
  | .stopRequested => "stop_requested"
  | .stopped => "stopped"
  | .notFound => "not_found"
  | .unknown => "unknown"
  | .canceled => "canceled"

/-- `JobStatus(s)`: parse a string into the enum
(`None` models the `ValueError` branch). -/
def JobStatus.parse (s : String) : Option JobStatus :=
  if s = "launching" then some .launching
  else if s = "queued" then some .queued
  else if s = "dispatched" then some .dispatched
  else if s = "running" then some .running
  else if s = "finished" then some .finished
  else if s = "failed" then some .failed
  else if s = "stop_requested" then some .stopRequested
  else if s = "stopped" then some .stopped
  else if s = "not_found" then some .notFound
  else if s = "unknown" then some .unknown
  else if s = "canceled" then some .canceled
  else none

/-- The `ALLOWED_TRANSITIONS` table.  `NOT_FOUND` and `UNKNOWN` have no key
in the Python dict; `dict.get(cur, set())` makes them empty here. -/
def allowedTransitions : JobStatus → List JobStatus
  | .launching => [.queued, .running, .canceled]
  | .queued => [.dispatched, .canceled]
  | .dispatched => [.running, .failed, .canceled, .stopRequested, .queued]
  | .running => [.finished, .failed, .stopRequested, .stopped, .canceled]
  | .stopRequested => [.stopped, .failed, .canceled]
  | .finished => []
  | .failed => []
  | .stopped => []
  | .canceled => []
  | .notFound => []
  | .unknown => []

/-- `can_transition(current, new)` of `app/status.py`: parse both strings
(`ValueError` gives `False`), always allow the utility targets
`NOT_FOUND`/`UNKNOWN`, otherwise consult the table. -/
def can_transition (current new : String) : Bool :=
  match JobStatus.parse current, JobStatus.parse new with
  | some cur, some nxt =>
    if nxt = .notFound ∨ nxt = .unknown then true
    else (allowedTransitions cur).contains nxt
  | _, _ => false

/-- Terminal statuses per the spec and the empty rows of the table. -/
def JobStatus.isTerminal : JobStatus → Bool
  | .finished => true
  | .failed => true
  | .stopped => true
  | .canceled => true
  | _ => false

/-! ## Status store and `_write_status` (`app/services/job_service.py`,
`app/utils/job_utils.py`) -/

/-- The on-disk `status.json` payload of one job: the `status` field plus
the extras merged into it (`job_id` is fixed by the file's directory and
elided). -/
structure StatusRecord where
  status : String
  extras : List (String × Val)
deriving DecidableEq

/-- `_read_status_file`: the `status` field of the payload, if the file
exists. -/
def read_status_file (file : Option StatusRecord) : Option String :=
  file.map (fun r => r.status)

/-- `write_status_file` content: `{job_id, status} | extra` with
`status_updated_at` defaulted (done by the caller `_write_status`). -/
def mkStatusRecord (status : String) (extra : List (String × Val)) (now : Int) : StatusRecord :=
  { status := status, extras := setdefaultKey "status_updated_at" (Val.int now) extra }

/-- `_write_status(job_id, status, extra)` acting on one job's status file.
Reads the previous status; if it is truthy, different from `status` and the
transition is not permitted, raises `ValueError` (the error carries the
`(prev, next)` pair); otherwise writes the new payload. -/
def write_status (file : Option StatusRecord) (status : String)
    (extra : List (String × Val)) (now : Int) : Except (String × String) StatusRecord :=
  let prev := read_status_file file
  if truthy prev ∧ prev ≠ some status ∧ can_transition (prev.getD "") status = false then
    .error (prev.getD "", status)
  else
    .ok (mkStatusRecord status extra now)

/-- `_force_status`: the ops override writes without any transition check. -/
def force_status (status : String) (extra : List (String × Val)) (now : Int) : StatusRecord :=
  mkStatusRecord status extra now

/-- The validation body of `agent_update_status(job_id, status, extra)`,
restricted to one job: everything the endpoint does after its
`_mark_stale_jobs()` sweep has completed (the full endpoint including the
sweep is `agent_update_status` below).  Returns the HTTP code (200 on
success) paired with the resulting on-disk status file; error paths leave
the file as the code does (the exception is raised before any write). -/
def agent_update_validate (jobExists : Bool) (file : Option StatusRecord)
    (status : String) (extra : List (String × Val)) (now : Int) :
    Nat × Option StatusRecord :=
  if jobExists = false then (404, file)
  else
    match JobStatus.parse status with
    | none => (400, file)
    | some _ =>
      match write_status file status extra now with
      | .error _ => (409, file)
      | .ok r => (200, some r)

/-! ## Filesystem queue (`app/utils/job_utils.py`) -/

/-- A queue entry file `queue/<job_id>.json`:
`{job_id, preferred_host, require_host}`.  `require_host` is `none` when
the key is absent from the JSON. -/
structure QueueEntry where
  job_id : String
  preferred_host : Option String
  require_host : Option Bool
deriving DecidableEq

/-- The release guard inside `agent_pop_next_job`:
`preferred and preferred != worker_id and require_host`, with
`require_host = payload.get("require_host", bool(preferred))`. -/
def releases (worker : String) (e : QueueEntry) : Bool :=
  let preferred := e.preferred_host
  truthy preferred && !(preferred == some worker) && e.require_host.getD (truthy preferred)

/-- `agent_pop_next_job(worker_id)` on the queue directory, whose pending
entries are listed in mtime order.  Claim files are transient (the function
first returns stale claims to the pool), so the state is the list of
pending entries.  Each entry is claimed by rename; a released entry keeps
its original name, hence its place; a returned entry is deleted. -/
def agent_pop_next_job (worker : String) : List QueueEntry → Option QueueEntry × List QueueEntry
  | [] => (none, [])
  | e :: rest =>
    if releases worker e then
      let res := agent_pop_next_job worker rest
      (res.1, e :: res.2)
    else
      (some e, rest)

/-- `enqueue_job(payload)` builds the entry that is dumped to
`queue/<job_id>.json` (defaulting `require_host` to `bool(preferred)`). -/
def enqueue_entry (payload : QueueEntry) : QueueEntry :=
  { job_id := payload.job_id
    preferred_host := payload.preferred_host
    require_host := some (payload.require_host.getD (truthy payload.preferred_host)) }

/-- The queue directory: filename → entry.  A directory cannot hold two
files of one name, which the operations below preserve. -/
def QueueDir := List (String × QueueEntry)

/-- `open(path, "w")` + `json.dump`: replace the file of that name, or
create it at the end of the listing. -/
def dirWrite (path : String) (c : QueueEntry) : QueueDir → QueueDir
  | [] => [(path, c)]
  | (p, c') :: rest => if p = path then (path, c) :: rest else (p, c') :: dirWrite path c rest

/-- `queue/<job_id>.json`. -/
def queuePath (jobId : String) : String := "queue/" ++ jobId ++ ".json"

/-- Read the file of a given name from the directory listing. -/
def dirLookup (path : String) : QueueDir → Option QueueEntry
  | [] => none
  | (p, c) :: rest => if p = path then some c else dirLookup path rest

/-- Effect of `enqueue_job(payload)` on the queue directory. -/
def enqueue_job (payload : QueueEntry) (d : QueueDir) : QueueDir :=
  dirWrite (queuePath payload.job_id) (enqueue_entry payload) d

/-- Raw filesystem operations, to record how a function writes. -/
inductive FsOp where
  | makedirs (dir : String)
  | openWrite (path : String)
  | mkstemp (dir : String)
  | replace (src dst : String)
deriving DecidableEq

/-- The operations `enqueue_job` performs, in order: `os.makedirs` on the
queue directory, then a direct `open(path, "w")` + `json.dump` on the
final name. -/
def enqueue_job_ops (payload : QueueEntry) : List FsOp :=
  [.makedirs "queue", .openWrite (queuePath payload.job_id)]

/-- The operations `write_status_file` performs, in order (`tmp` is the
path `tempfile.mkstemp` returned): for contrast with `enqueue_job_ops`,
this one does write a temp file and atomically rename it. -/
def write_status_file_ops (jobId tmp : String) : List FsOp :=
  [.makedirs ("jobs/" ++ jobId), .mkstemp ("jobs/" ++ jobId),
   .replace tmp ("jobs/" ++ jobId ++ "/status.json")]

/-! ## Dispatch (`agent_next_job` in `app/services/job_service.py`) -/

/-- The part of the dispatch response that the claims are about. -/
structure Dispatch where
  job_id : String
  preferred_host : Option String
deriving DecidableEq

/-- `agent_next_job(worker_id)`.  The environment is read through three
maps: whether a job is tracked, its current status
(`_read_status_file(job_id) or meta.get("status")`), and its resolved
config path (registry or `job_info.json`).  The status and job-info writes
on the dispatch path do not affect these claims and are elided; what is
kept is the returned payload and the queue effect. -/
def agent_next_job (worker : String) (q : List QueueEntry)
    (metaExists : String → Bool) (statusOf : String → Option String)
    (configOf : String → Option String) : Option Dispatch × List QueueEntry :=
  match agent_pop_next_job worker q with
  | (none, q') => (none, q')
  | (some entry, q') =>
    if metaExists entry.job_id = false then
      (none, q')
    else if ¬ (statusOf entry.job_id = some "queued" ∨ statusOf entry.job_id = some "launching") then
      (none, q')
    else
      match configOf entry.job_id with
      | none => (none, q')
      | some _ => (some ⟨entry.job_id, entry.preferred_host⟩, q')

/-! ## Reaper (`_mark_stale_jobs` in `app/services/job_service.py`) -/

/-- The registry fields of one job that the reaper reads. -/
structure JobMeta where
  status : String
  target_host : Option String
  preferred_host : Option String
  require_host : Option Bool
deriving DecidableEq

/-- `settings.JOB_STATUS_TTL` as `app/config.py` leaves it: the `Settings`
class declares no such field (and no other definition exists in the
repository), so reading the attribute raises `AttributeError`.  The absent
value models the undeclared attribute. -/
def settings_JOB_STATUS_TTL : Option Int := none

/-- `last_update and (now - last_update) > settings.JOB_STATUS_TTL`.
A falsy `last_update` (`None`, or a stored `0.0`) short-circuits before
the attribute read; a truthy one forces the read of
`settings.JOB_STATUS_TTL`, which raises `AttributeError` when the setting
is undeclared (`.error`). -/
def job_status_ttl_guard (now : Int) (jobStatusTTL : Option Int) :
    Option Int → Except Unit Bool
  | none => .ok false
  | some t =>
    if t = 0 then .ok false
    else
      match jobStatusTTL with
      | none => .error ()
      | some ttl => .ok (now - t > ttl)

/-- What one iteration of the reaper loop does to a job: nothing, requeue
it (enqueue the entry and write status `queued` with the extras), or fail
it (write status `failed` with the extras). -/
inductive StepAction where
  | requeue (entry : QueueEntry) (extras : List (String × Val))
  | fail (extras : List (String × Val))
deriving DecidableEq

/-- One iteration of the `_mark_stale_jobs` loop for the job `jobId`.
`lastUpdate` is `_status_last_update(job_id)`; `lastSeen` is the recorded
heartbeat of `meta.target_host` (`none` when the host has none).  The TTLs
mirror `settings.HOST_HEARTBEAT_TTL` and
`settings.WORKER_STALE_GRACE_SECONDS`; `jobStatusTTL` is the
`settings.JOB_STATUS_TTL` attribute the guard reads, and `.error` is the
`AttributeError` escaping that read when the attribute is undeclared. -/
def mark_stale_step (now heartbeatTTL staleGrace : Int) (jobStatusTTL : Option Int)
    (jobId : String) (meta : JobMeta) (lastUpdate lastSeen : Option Int) :
    Except Unit (Option StepAction) :=
  let cutoff := heartbeatTTL + staleGrace
  let host := meta.target_host
  if ¬ (meta.status = "dispatched" ∨ meta.status = "running" ∨ meta.status = "stop_requested") then
    .ok none
  else
    match job_status_ttl_guard now jobStatusTTL lastUpdate with
    | .error e => .error e
    | .ok true =>
      let preferred := orTruthy meta.preferred_host meta.target_host
      let req := meta.require_host.getD (truthy preferred)
      if meta.status = "dispatched" then
        .ok (some (.requeue ⟨jobId, preferred, some req⟩
          [("requeued_from", optStrVal host), ("preferred_host", optStrVal preferred),
           ("stale_status", Val.bool true)]))
      else
        .ok (some (.fail [("error", Val.str "stale_status"), ("last_host", optStrVal host)]))
    | .ok false =>
      if ¬ truthy host then
        .ok none
      else
        match lastSeen with
        | none => .ok none
        | some seen =>
          if ¬ (now - seen > cutoff) then
            .ok none
          else
            let preferred := orTruthy meta.preferred_host meta.target_host
            let req := meta.require_host.getD (truthy preferred)
            if meta.status = "dispatched" then
              .ok (some (.requeue ⟨jobId, preferred, some req⟩
                [("requeued_from", optStrVal host), ("preferred_host", optStrVal preferred)]))
            else
              .ok (some (.fail [("error", Val.str "worker_offline"),
                                ("last_host", optStrVal host)]))

/-- The whole `_mark_stale_jobs()` sweep, iterating the tracked jobs in
table order.  `lastUpdateOf` maps a job id to its `_status_last_update`;
`heartbeatOf` maps a host to its recorded heartbeat.  An `AttributeError`
raised at any job escapes and aborts the sweep; callers below only
observe completion or that escaping exception (the sweep's own status
writes rewrite job statuses but never add or remove registry keys, job
directories or status-file existence, which is all the callers' claims
read). -/
def mark_stale_sweep (now heartbeatTTL staleGrace : Int) (jobStatusTTL : Option Int)
    (lastUpdateOf heartbeatOf : String → Option Int) :
    List (String × JobMeta) → Except Unit Unit
  | [] => .ok ()
  | (jid, meta) :: rest =>
    match mark_stale_step now heartbeatTTL staleGrace jobStatusTTL jid meta
        (lastUpdateOf jid) (meta.target_host.bind heartbeatOf) with
    | .error e => .error e
    | .ok _ =>
      mark_stale_sweep now heartbeatTTL staleGrace jobStatusTTL lastUpdateOf heartbeatOf rest

/-- `agent_update_status(job_id, status, extra)` as the endpoint runs it:
`_refresh_jobs()` and `_mark_stale_jobs()` first, then the validation
body.  `tracked` is the jobs table the sweep iterates; `file` is the
posted job's status file as it stands when the validation body runs.
`.error` is the `AttributeError` escaping the service, which the agent
controller's catch-all converts into an HTTP 500. -/
def agent_update_status (now heartbeatTTL staleGrace : Int) (jobStatusTTL : Option Int)
    (tracked : List (String × JobMeta)) (lastUpdateOf heartbeatOf : String → Option Int)
    (jobExists : Bool) (file : Option StatusRecord) (status : String)
    (extra : List (String × Val)) (tnow : Int) : Except Unit (Nat × Option StatusRecord) :=
  match mark_stale_sweep now heartbeatTTL staleGrace jobStatusTTL
      lastUpdateOf heartbeatOf tracked with
  | .error e => .error e
  | .ok _ => .ok (agent_update_validate jobExists file status extra tnow)

/-! ## Ops surface (`ops_requeue_job` / `ops_fail_job` / `ops_cancel_job`) -/

/-- `status_now = _read_status_file(job_id) or meta.get("status", UNKNOWN)`. -/
def statusNow (file : Option StatusRecord) (metaStatus : String) : String :=
  match read_status_file file with
  | some s => if s = "" then metaStatus else s
  | none => metaStatus

/-- Terminal status strings, as each ops guard lists them. -/
def terminalStrs : List String := ["finished", "failed", "stopped", "canceled"]

/-- Outcome of an ops call on a job: the 409 guard fired, the non-forced
status write raised `ValueError` (an uncaught invalid transition), or the
operation completed writing `newStatus`. -/
inductive OpsResult where
  | http409
  | invalidTransition (p n : String)
  | ok (newStatus : String)
deriving DecidableEq

/-- `ops_requeue_job` on one job (404 and host validation elided; the
queue/registry writes are not part of these claims).  `prevHost` and
`preferred` feed the extras as in the source. -/
def ops_requeue_job (force : Bool) (file : Option StatusRecord) (metaStatus : String)
    (prevHost preferred : Option String) (now : Int) : OpsResult :=
  let st := statusNow file metaStatus
  if ¬ force ∧ st ∈ terminalStrs then .http409
  else if ¬ force ∧ (st = "running" ∨ st = "stop_requested") then .http409
  else
    let extra := [("requeued_by_ops", Val.bool true), ("force", Val.bool force),
                  ("requeued_from", optStrVal prevHost), ("preferred_host", optStrVal preferred)]
    if force then .ok "queued"
    else
      match write_status file "queued" extra now with
      | .error e => .invalidTransition e.1 e.2
      | .ok _ => .ok "queued"

/-- `ops_fail_job` on one job. -/
def ops_fail_job (force : Bool) (file : Option StatusRecord) (metaStatus : String)
    (reason : String) (now : Int) : OpsResult :=
  let st := statusNow file metaStatus
  if ¬ force ∧ st ∈ terminalStrs then .http409
  else if ¬ force ∧ (st = "queued" ∨ st = "launching") then .http409
  else
    let extra := [("error", Val.str reason), ("failed_by_ops", Val.bool true),
                  ("force", Val.bool force)]
    if force then .ok "failed"
    else
      match write_status file "failed" extra now with
      | .error e => .invalidTransition e.1 e.2
      | .ok _ => .ok "failed"

/-- `ops_cancel_job` on one job. -/
def ops_cancel_job (force : Bool) (file : Option StatusRecord) (metaStatus : String)
    (reason : String) (now : Int) : OpsResult :=
  let st := statusNow file metaStatus
  if ¬ force ∧ st ∈ terminalStrs then .http409
  else
    let extra := [("error", Val.str reason), ("canceled_by_ops", Val.bool true),
                  ("force", Val.bool force)]
    if force then .ok "canceled"
    else
      match write_status file "canceled" extra now with
      | .error e => .invalidTransition e.1 e.2
      | .ok _ => .ok "canceled"

/-! ## Config path validation in `launch_simulation` -/

/-- Does `lead` head the character list? (`str.startswith`). -/
def charsLead : List Char → List Char → Bool
  | [], _ => true
  | _ :: _, [] => false
  | a :: as, b :: bs => a = b && charsLead as bs

/-- `s.startswith(l)` on strings. -/
def strLead (s l : String) : Bool := charsLead l.toList s.toList

/-- `s.lstrip("/")`. -/
def lstripSlash (s : String) : String :=
  String.mk (s.toList.dropWhile (fun c => c = '/'))

/-- `s.split("/")` (Python `str.split` with an explicit separator: empty
pieces are kept, the empty string gives `[""]`). -/
def splitSlash (s : String) : List String :=
  (s.toList.foldr
    (fun c acc =>
      match acc with
      | cur :: rest => if c = '/' then [] :: cur :: rest else (c :: cur) :: rest
      | [] => [])
    [[]]).map String.mk

/-- `"/".join(l)`. -/
def joinSlash : List String → String
  | [] => ""
  | [x] => x
  | x :: xs => x ++ "/" ++ joinSlash xs

/-- The component loop of `posixpath.normpath`: `stack` is the collected
components in reverse (`new_comps` with its top first). -/
def normComps (initSlashes : Nat) : List String → List String → List String
  | [], stack => stack.reverse
  | c :: cs, stack =>
    if c = "" ∨ c = "." then normComps initSlashes cs stack
    else if c ≠ ".." ∨ (initSlashes = 0 ∧ stack = []) ∨ stack.head? = some ".." then
      normComps initSlashes cs (c :: stack)
    else
      match stack with
      | _ :: rest => normComps initSlashes cs rest
      | [] => normComps initSlashes cs []

/-- `os.path.normpath` (POSIX flavour, as the service runs on Linux). -/
def normpath (p : String) : String :=
  let initSlashes : Nat :=
    if strLead p "//" ∧ ¬ strLead p "///" then 2
    else if strLead p "/" then 1 else 0
  let comps := normComps initSlashes (splitSlash p) []
  let joined := String.mk (List.replicate initSlashes '/') ++ joinSlash comps
  if joined = "" then "." else joined

/-- The `relative_path` that `launch_simulation` computes from a request's
`config_path`: `lstrip("/")`, strip a leading `configs/`, `normpath`. -/
def launch_relative_path (p : String) : String :=
  let cp := lstripSlash p
  let rel := if strLead cp "configs/" then String.mk (cp.toList.drop 8) else cp
  normpath rel

/-- The `config_path` handling at the top of `launch_simulation`: refuse
the normalized relative path when it starts with `..` (HTTP 400). -/
def launch_config_path_check (p : String) : Except Nat String :=
  let rel := launch_relative_path p
  if strLead rel ".." then .error 400 else .ok rel

/-- `launch_simulation` for a request with `config_path = p`, tracked up to
the point the claims reach: the 400 refusal happens before any per-job
write, so the error branch carries no operations; the success branch goes
on to create the log dir, registry entry, `job_info.json`, status file and
queue entry for the fresh `jobId` (reading the config may still fail, which
raises before those writes but is not a 400). -/
def launch_with_config_path (jobId : String) (p : String) :
    Except Nat (String × List FsOp) :=
  match launch_config_path_check p with
  | .error code => .error code
  | .ok rel =>
    .ok (rel,
      [.makedirs ("jobs/" ++ jobId ++ "/logs"), .openWrite "job_track.json",
       .openWrite ("jobs/" ++ jobId ++ "/job_info.json"),
       .openWrite ("jobs/" ++ jobId ++ "/status.json"),
       .openWrite (queuePath jobId)])

/-- `os.path.isabs` (POSIX). -/
def isAbs (p : String) : Bool := strLead p "/"

/-! ## Worker agent (`worker_agent.py`) -/

/-- The two `POST /api/agent/job-status` bodies `run_job` sends, in order:
the RUNNING report after the container starts, and the terminal report
after `container.wait()` returns `exitCode`.  Each body is the JSON dict
the source builds, key for key. -/
def run_job_status_posts (jobId workerId containerId containerName : String)
    (exitCode : Int) : List (String × Val) × List (String × Val) :=
  ( [("job_id", Val.str jobId), ("status", Val.str "running"),
     ("worker_id", Val.str workerId), ("container_id", Val.str containerId),
     ("container_name", Val.str containerName)],
    [("job_id", Val.str jobId),
     ("status", Val.str (if exitCode = 0 then "finished" else "failed")),
     ("worker_id", Val.str workerId)] )

/-! ## Deletion (`delete_job_by_id` in `app/utils/job_utils.py`,
`delete_job` in `app/services/job_service.py`) -/

/-- The durable state `delete` touches: which job ids have a directory
under `jobs/`, and the registry (`job_track.json`). -/
structure Store where
  dirs : List String
  track : List (String × JobMeta)
deriving DecidableEq

/-- `delete_job_by_id`: `rmtree` the job directory if it exists, drop the
registry entry if present.  The source computes a `removed` flag from the
two branches but then returns `True` unconditionally. -/
def delete_job_by_id (s : Store) (jobId : String) : Store × Bool :=
  let s1 : Store := { s with dirs := s.dirs.filter (fun d => d ≠ jobId) }
  let s2 : Store := { s1 with track := s1.track.filter (fun kv => kv.1 ≠ jobId) }
  (s2, true)

/-- Outcome of `delete_job`: the reaper sweep's `AttributeError` escaped
(no handler on this path, so the framework answers 500 Internal Server
Error before anything is deleted), an `HTTPException` with the given
code, or success. -/
inductive DeleteResult where
  | attrError
  | http (code : Nat)
  | ok (s : Store)
deriving DecidableEq

/-- `delete_job`: runs `_refresh_jobs()` and `_mark_stale_jobs()` first —
the sweep iterates the registry, `s.track` — then 404 when the job is not
tracked (the in-memory cache equals the registry after the refresh, and a
completed sweep rewrites statuses but never registry keys or job
directories), 500 when `delete_job_by_id` reports failure, success
otherwise. -/
def delete_job (now heartbeatTTL staleGrace : Int) (jobStatusTTL : Option Int)
    (lastUpdateOf heartbeatOf : String → Option Int)
    (s : Store) (jobId : String) : DeleteResult :=
  match mark_stale_sweep now heartbeatTTL staleGrace jobStatusTTL
      lastUpdateOf heartbeatOf s.track with
  | .error _ => .attrError
  | .ok _ =>
    if ¬ s.track.any (fun kv => kv.1 = jobId) then .http 404
    else
      let r := delete_job_by_id s jobId
      if r.2 = false then .http 500
      else .ok r.1

/-! ## Helper lemmas -/

theorem JobStatus.value_inj : ∀ a b : JobStatus, a.value = b.value → a = b := by decide

theorem JobStatus.value_ne_empty : ∀ a : JobStatus, a.value ≠ "" := by decide

theorem write_status_none (status : String) (extra : List (String × Val)) (now : Int) :
    write_status none status extra now = .ok (mkStatusRecord status extra now) := rfl

theorem write_status_some (r : StatusRecord) (status : String)
    (extra : List (String × Val)) (now : Int) :
    write_status (some r) status extra now =
      if r.status ≠ "" ∧ r.status ≠ status ∧ can_transition r.status status = false then
        .error (r.status, status)
      else
        .ok (mkStatusRecord status extra now) := by
  simp only [write_status, read_status_file, Option.map_some', Option.getD_some, truthy]
  by_cases h1 : r.status = ""
  · simp [h1]
  · by_cases h2 : r.status = status
    · simp [h1, h2]
    · by_cases h3 : can_transition r.status status = false <;>
        simp [h1, h2, h3]

/-! ## C1: terminal statuses and `can_transition` -/

/-- C1, counterexample: the claim says `can_transition(prev, next)` is
false for every terminal `prev` and every `next`; but the utility target
`not_found` is always allowed, even out of `finished`. -/
theorem terminal_utility_escape_cx :
    can_transition "finished" "not_found" = true ∧
    write_status (some ⟨"finished", []⟩) "unknown" [] 0 =
      .ok ⟨"unknown", [("status_updated_at", Val.int 0)]⟩ :=
  ⟨by decide, rfl⟩

/-- C1, amended: for every terminal `prev` and every `next` other than the
utility statuses `not_found`/`unknown`, `can_transition(prev, next)` is
false, and a `_write_status` without the force path can only succeed out
of that terminal status when it rewrites the same status (no transition
out is ever recorded). -/
theorem terminal_write_once (p n : JobStatus) (hp : p.isTerminal = true)
    (hn : n ≠ JobStatus.notFound ∧ n ≠ JobStatus.unknown) :
    can_transition p.value n.value = false ∧
    ∀ (ex extra : List (String × Val)) (now : Int) (out : StatusRecord),
      write_status (some ⟨p.value, ex⟩) n.value extra now = .ok out → n = p := by
  have key : ∀ p n : JobStatus, p.isTerminal = true →
      (n ≠ JobStatus.notFound ∧ n ≠ JobStatus.unknown) →
      can_transition p.value n.value = false := by decide
  refine ⟨key p n hp hn, ?_⟩
  intro ex extra now out hok
  by_cases hpn : n = p
  · exact hpn
  · exfalso
    rw [write_status_some] at hok
    have hguard : (⟨p.value, ex⟩ : StatusRecord).status ≠ "" ∧
        (⟨p.value, ex⟩ : StatusRecord).status ≠ n.value ∧
        can_transition (⟨p.value, ex⟩ : StatusRecord).status n.value = false := by
      refine ⟨JobStatus.value_ne_empty p, ?_, key p n hp hn⟩
      intro hv
      exact hpn (JobStatus.value_inj n p hv.symm)
    rw [if_pos hguard] at hok
    exact Except.noConfusion hok

/-- C1, witness. -/
theorem terminal_write_once_w :
    can_transition (JobStatus.finished).value (JobStatus.queued).value = false :=
  (terminal_write_once .finished .queued (by decide) ⟨by decide, by decide⟩).1

/-! ## C2: `agent_update_status` validation -/

/-- C2, counterexample, against both halves of the claim: (i) with the
on-disk status `queued` and an agent post of `queued`, `can_transition`
does not allow the (self-)transition, yet the endpoint succeeds with 200
instead of the 409 the claim requires — the transition check is skipped
whenever `prev == status`; (ii) with a tracked DISPATCHED job whose
status file has a timestamp, the `_mark_stale_jobs()` sweep the endpoint
runs first raises `AttributeError` at the undeclared
`settings.JOB_STATUS_TTL`, so posting the perfectly legal `running` onto
`dispatched` ends as an HTTP 500, not the 409/success dichotomy the claim
describes. -/
theorem agent_update_same_status_cx :
    (agent_update_status 1000 60 120 settings_JOB_STATUS_TTL
        [("j", ⟨"queued", none, none, none⟩)] (fun _ => some 100) (fun _ => none)
        true (some ⟨"queued", []⟩) "queued" [] 0 =
      .ok (200, some ⟨"queued", [("status_updated_at", Val.int 0)]⟩) ∧
      can_transition "queued" "queued" = false) ∧
    (agent_update_status 1000 60 120 settings_JOB_STATUS_TTL
        [("j", ⟨"dispatched", some "w1", some "w1", some true⟩)]
        (fun _ => some 900) (fun _ => none)
        true (some ⟨"dispatched", []⟩) "running" [] 0 = .error () ∧
      can_transition "dispatched" "running" = true) :=
  ⟨⟨rfl, by decide⟩, ⟨rfl, by decide⟩⟩

/-- C2, amended: the endpoint runs the reaper sweep before validating;
whenever that sweep raises — which it does at the undeclared
`settings.JOB_STATUS_TTL` as soon as any tracked job is in
DISPATCHED/RUNNING/STOP_REQUESTED with a readable status timestamp — the
call fails as an HTTP 500 regardless of the posted status.  When the
sweep completes, on an existing job: an unknown `status` fails with 400
(leaving the file alone); a known `status` fails with 409 exactly when a
status file exists whose status is non-empty, differs from the posted
one, and the transition is not allowed — and on that 409 the on-disk
status file is unchanged.  (Same-status posts and posts with no prior
status file succeed.) -/
theorem agent_update_status_conflict_spec (now hbTTL grace : Int) (jsTTL : Option Int)
    (tracked : List (String × JobMeta)) (luOf hbOf : String → Option Int)
    (file : Option StatusRecord) (status : String)
    (extra : List (String × Val)) (tnow : Int) :
    (mark_stale_sweep now hbTTL grace jsTTL luOf hbOf tracked = .error () →
      agent_update_status now hbTTL grace jsTTL tracked luOf hbOf
        true file status extra tnow = .error ())
    ∧ (mark_stale_sweep now hbTTL grace jsTTL luOf hbOf tracked = .ok () →
      agent_update_status now hbTTL grace jsTTL tracked luOf hbOf
        true file status extra tnow = .ok (agent_update_validate true file status extra tnow))
    ∧ (JobStatus.parse status = none →
      agent_update_validate true file status extra tnow = (400, file))
    ∧ ((JobStatus.parse status).isSome = true →
      (((agent_update_validate true file status extra tnow).1 = 409) ↔
        ∃ r, file = some r ∧ r.status ≠ "" ∧ r.status ≠ status ∧
          can_transition r.status status = false)
      ∧ (((agent_update_validate true file status extra tnow).1 = 409) →
        (agent_update_validate true file status extra tnow).2 = file)) := by
  refine ⟨?_, ?_, ?_, ?_⟩
  · intro h
    simp [agent_update_status, h]
  · intro h
    simp [agent_update_status, h]
  · intro h
    simp [agent_update_validate, h]
  · intro h
    obtain ⟨j, hj⟩ := Option.isSome_iff_exists.mp h
    cases file with
    | none =>
      simp [agent_update_validate, hj, write_status_none]
    | some r =>
      by_cases hguard : r.status ≠ "" ∧ r.status ≠ status ∧
          can_transition r.status status = false
      · have hres : agent_update_validate true (some r) status extra tnow = (409, some r) := by
          simp [agent_update_validate, hj, write_status_some, hguard]
        refine ⟨?_, ?_⟩
        · rw [hres]
          exact ⟨fun _ => ⟨r, rfl, hguard⟩, fun _ => rfl⟩
        · intro _
          rw [hres]
      · have hres : agent_update_validate true (some r) status extra tnow =
            (200, some (mkStatusRecord status extra tnow)) := by
          simp [agent_update_validate, hj, write_status_some, hguard]
        refine ⟨?_, ?_⟩
        · rw [hres]
          constructor
          · intro habs
            simp at habs
          · rintro ⟨r', hr', h1, h2, h3⟩
            obtain rfl : r' = r := by
              injection hr' with hr'
              exact hr'.symm
            exact absurd ⟨h1, h2, h3⟩ hguard
        · intro habs
          rw [hres] at habs
          simp at habs

/-- C2, witness: a job in QUEUED posted `running` directly gets 409 from
the validation body, and the same post fails as a 500 when the sweep runs
into a tracked RUNNING job with a status timestamp. -/
theorem agent_update_status_conflict_spec_w :
    (agent_update_validate true (some ⟨"queued", []⟩) "running" [] 0).1 = 409 ∧
    agent_update_status 1000 60 120 settings_JOB_STATUS_TTL
      [("k", ⟨"running", some "w1", none, none⟩)] (fun _ => some 900) (fun _ => none)
      true (some ⟨"queued", []⟩) "running" [] 0 = .error () :=
  ⟨((agent_update_status_conflict_spec 1000 60 120 settings_JOB_STATUS_TTL
      [] (fun _ => none) (fun _ => none) (some ⟨"queued", []⟩) "running" [] 0).2.2.2
      (by decide)).1.mpr ⟨⟨"queued", []⟩, rfl, by decide, by decide, by decide⟩,
   (agent_update_status_conflict_spec 1000 60 120 settings_JOB_STATUS_TTL
      [("k", ⟨"running", some "w1", none, none⟩)] (fun _ => some 900) (fun _ => none)
      (some ⟨"queued", []⟩) "running" [] 0).1 rfl⟩

/-! ## C3: stale queue entries in `agent_next_job` -/

/-- C3, counterexample: queue `[a, b]` where `a`'s job is already
`finished` (a stale entry) and `b`'s job is pending.  The claim says the
call keeps scanning and dispatches `b`; the code instead returns no job
for this call (the stale entry is dropped from the queue). -/
theorem next_job_stale_entry_cx :
    agent_next_job "w" [⟨"a", none, none⟩, ⟨"b", none, none⟩]
      (fun _ => true)
      (fun id => if id = "a" then some "finished" else some "queued")
      (fun _ => some "configs/demo.yaml") =
    (none, [⟨"b", none, none⟩]) := by decide

/-- C3, amended: popping a stale entry drops it from the queue but ends
the call with no job; an eligible pending entry behind it is dispatched
only by the next call, not the same one. -/
theorem next_job_stale_entry_two_calls (worker : String) (e1 e2 : QueueEntry)
    (metaExists : String → Bool) (statusOf configOf : String → Option String)
    (h1 : releases worker e1 = false) (h2 : metaExists e1.job_id = true)
    (h3 : ¬(statusOf e1.job_id = some "queued" ∨ statusOf e1.job_id = some "launching"))
    (h4 : releases worker e2 = false) (h5 : metaExists e2.job_id = true)
    (h6 : statusOf e2.job_id = some "queued") (h7 : (configOf e2.job_id).isSome = true) :
    agent_next_job worker [e1, e2] metaExists statusOf configOf = (none, [e2]) ∧
    agent_next_job worker [e2] metaExists statusOf configOf =
      (some ⟨e2.job_id, e2.preferred_host⟩, []) := by
  obtain ⟨c, hc⟩ := Option.isSome_iff_exists.mp h7
  constructor
  · simp [agent_next_job, agent_pop_next_job, h1, h2, h3]
  · simp [agent_next_job, agent_pop_next_job, h4, h5, h6, hc]

/-- C3, witness. -/
theorem next_job_stale_entry_two_calls_w :
    agent_next_job "w" [⟨"a", none, none⟩, ⟨"b", none, none⟩]
      (fun _ => true)
      (fun id => if id = "b" then some "queued" else some "canceled")
      (fun _ => some "configs/demo.yaml") = (none, [⟨"b", none, none⟩]) ∧
    agent_next_job "w" [⟨"b", none, none⟩]
      (fun _ => true)
      (fun id => if id = "b" then some "queued" else some "canceled")
      (fun _ => some "configs/demo.yaml") = (some ⟨"b", none⟩, []) :=
  next_job_stale_entry_two_calls "w" ⟨"a", none, none⟩ ⟨"b", none, none⟩
    (fun _ => true)
    (fun id => if id = "b" then some "queued" else some "canceled")
    (fun _ => some "configs/demo.yaml")
    (by decide) (by decide) (by decide) (by decide) (by decide) (by decide) (by decide)

/-! ## C4: reaper on a silent worker -/

/-- C4, counterexample: a DISPATCHED job on host `w1` whose heartbeat is
older than the cutoff.  With a readable status timestamp — the normal
case, since `_write_status` always stamps one — the sweep step raises
`AttributeError` at the undeclared `settings.JOB_STATUS_TTL` read and
transitions nothing, contrary to "one reaper sweep transitions it"; and
in the only case that does reach the offline-host branch (no readable
timestamp) the extras written with QUEUED are `requeued_from` and
`preferred_host` only — no `error=worker_offline_on_requeue` key. -/
theorem reaper_requeue_extras_cx :
    mark_stale_step 1000 60 120 settings_JOB_STATUS_TTL "j"
        ⟨"dispatched", some "w1", some "w1", some true⟩ (some 900) (some 100) =
      .error () ∧
    mark_stale_step 1000 60 120 settings_JOB_STATUS_TTL "j"
        ⟨"dispatched", some "w1", some "w1", some true⟩ none (some 100) =
      .ok (some (.requeue ⟨"j", some "w1", some true⟩
        [("requeued_from", Val.str "w1"), ("preferred_host", Val.str "w1")])) ∧
    lookupKey "error"
      [("requeued_from", Val.str "w1"), ("preferred_host", Val.str "w1")] = none :=
  ⟨rfl, rfl, rfl⟩

/-- C4, amended: for a job in DISPATCHED/RUNNING/STOP_REQUESTED whose
host heartbeat is older than `HEARTBEAT_TTL + WORKER_STALE_GRACE`: if the
job has a readable (nonzero) status timestamp the sweep step instead
raises `AttributeError`, because it must read the undeclared
`settings.JOB_STATUS_TTL`, and transitions nothing; only when that guard
passes — under the live configuration, only with no readable timestamp —
does one sweep transition the job: a DISPATCHED job is re-enqueued with
its host preference preserved and moved to QUEUED with extras
`requeued_from`/`preferred_host` and no `error` key, and a RUNNING or
STOP_REQUESTED job is failed with `error=worker_offline`; both are
permitted transitions. -/
theorem reaper_offline_host_spec (now hbTTL grace : Int) (jsTTL : Option Int)
    (jobId : String) (meta : JobMeta) (lastUpdate : Option Int) (seen : Int)
    (hoff : now - seen > hbTTL + grace)
    (hactive : meta.status = "dispatched" ∨ meta.status = "running" ∨
      meta.status = "stop_requested")
    (hhost : truthy meta.target_host = true) :
    (∀ t : Int, t ≠ 0 →
      mark_stale_step now hbTTL grace settings_JOB_STATUS_TTL jobId meta
        (some t) (some seen) = .error ()) ∧
    (job_status_ttl_guard now jsTTL lastUpdate = .ok false →
      (meta.status = "dispatched" →
        mark_stale_step now hbTTL grace jsTTL jobId meta lastUpdate (some seen) =
          .ok (some (.requeue
            ⟨jobId, orTruthy meta.preferred_host meta.target_host,
              some ((meta.require_host).getD
                (truthy (orTruthy meta.preferred_host meta.target_host)))⟩
            [("requeued_from", optStrVal meta.target_host),
             ("preferred_host", optStrVal (orTruthy meta.preferred_host meta.target_host))])) ∧
        lookupKey "error"
          [("requeued_from", optStrVal meta.target_host),
           ("preferred_host", optStrVal (orTruthy meta.preferred_host meta.target_host))] =
          none ∧
        can_transition "dispatched" "queued" = true) ∧
      ((meta.status = "running" ∨ meta.status = "stop_requested") →
        mark_stale_step now hbTTL grace jsTTL jobId meta lastUpdate (some seen) =
          .ok (some (.fail [("error", Val.str "worker_offline"),
                            ("last_host", optStrVal meta.target_host)])) ∧
        can_transition meta.status "failed" = true)) := by
  constructor
  · intro t ht
    rcases hactive with hst | hst | hst <;>
      simp [mark_stale_step, hst, job_status_ttl_guard, settings_JOB_STATUS_TTL, ht]
  · intro hfresh
    constructor
    · intro hst
      refine ⟨?_, rfl, by decide⟩
      simp [mark_stale_step, hst, hfresh, hhost, hoff]
    · intro hst
      rcases hst with hst | hst <;>
        exact ⟨by simp [mark_stale_step, hst, hfresh, hhost, hoff],
               by rw [hst]; decide⟩

/-- C4, witness: with no readable status timestamp the TTL guard passes
and the offline-host sweep fails a RUNNING job with
`error=worker_offline`. -/
theorem reaper_offline_host_spec_w :
    mark_stale_step 1000 60 120 settings_JOB_STATUS_TTL "k"
        ⟨"running", some "w2", none, none⟩ none (some 100) =
      .ok (some (.fail [("error", Val.str "worker_offline"),
                        ("last_host", Val.str "w2")])) :=
  ((((reaper_offline_host_spec 1000 60 120 settings_JOB_STATUS_TTL "k"
      ⟨"running", some "w2", none, none⟩ none 100 (by decide)
      (Or.inr (Or.inl rfl)) (by decide)).2 rfl).2) (Or.inl rfl)).1

/-! ## C5: enqueue semantics -/

theorem dirWrite_keys (path : String) (c : QueueEntry) (d : QueueDir) :
    (dirWrite path c d).map Prod.fst =
      if path ∈ d.map Prod.fst then d.map Prod.fst else d.map Prod.fst ++ [path] := by
  induction d with
  | nil => simp [dirWrite]
  | cons kv rest ih =>
    obtain ⟨p, c'⟩ := kv
    by_cases hp : p = path
    · simp [dirWrite, hp]
    · simp only [dirWrite, if_neg hp, List.map_cons, ih]
      by_cases hmem : path ∈ rest.map Prod.fst <;>
        simp [hmem, Ne.symm hp]

theorem dirWrite_nodup (path : String) (c : QueueEntry) (d : QueueDir)
    (h : (d.map Prod.fst).Nodup) : ((dirWrite path c d).map Prod.fst).Nodup := by
  rw [dirWrite_keys]
  by_cases hmem : path ∈ d.map Prod.fst
  · simpa [hmem] using h
  · simp only [hmem, if_false]
    rw [List.nodup_append]
    exact ⟨h, List.nodup_singleton _, by simpa [List.disjoint_singleton] using hmem⟩

theorem dirLookup_dirWrite (path : String) (c : QueueEntry) (d : QueueDir) :
    dirLookup path (dirWrite path c d) = some c := by
  induction d with
  | nil => simp [dirWrite, dirLookup]
  | cons kv rest ih =>
    obtain ⟨p, c'⟩ := kv
    by_cases hp : p = path
    · simp [dirWrite, dirLookup, hp]
    · simp [dirWrite, dirLookup, hp, ih]

theorem enqueue_fold_nodup (ps : List QueueEntry) :
    ∀ d : QueueDir, (d.map Prod.fst).Nodup →
      ((ps.foldl (fun acc p => enqueue_job p acc) d).map Prod.fst).Nodup := by
  induction ps with
  | nil => intro d h; simpa using h
  | cons p rest ih =>
    intro d h
    exact ih (enqueue_job p d) (dirWrite_nodup _ _ _ h)

/-- C5, counterexample: the operations `enqueue_job` performs are a
`makedirs` and then a direct `open(path, "w")` on the final
`queue/<job_id>.json` name — there is no temp file and no atomic rename,
contrary to the claim. -/
theorem enqueue_no_temp_rename_cx :
    enqueue_job_ops ⟨"j", none, none⟩ = [.makedirs "queue", .openWrite "queue/j.json"] ∧
    (enqueue_job_ops ⟨"j", none, none⟩).all
      (fun op => match op with
        | .replace _ _ => false
        | .mkstemp _ => false
        | _ => true) = true := by decide

/-- C5, amended: `enqueue_job` writes the entry JSON directly to
`queue/<job_id>.json` (no temp path, no rename); since that is the final
name, an enqueue for a job that already has an entry overwrites it in
place, and any sequence of enqueues leaves at most one queue file per
name. -/
theorem enqueue_direct_write_idempotent :
    (∀ payload : QueueEntry,
      enqueue_job_ops payload = [.makedirs "queue", .openWrite (queuePath payload.job_id)]) ∧
    ∀ (d : QueueDir) (ps : List QueueEntry),
      (d.map Prod.fst).Nodup →
      (((ps.foldl (fun acc p => enqueue_job p acc) d).map Prod.fst).Nodup ∧
        ∀ x, ((ps.foldl (fun acc p => enqueue_job p acc) d).map Prod.fst).count x ≤ 1) ∧
      ∀ p : QueueEntry, dirLookup (queuePath p.job_id) (enqueue_job p d) =
        some (enqueue_entry p) := by
  refine ⟨fun _ => rfl, ?_⟩
  intro d ps h
  have hnd := enqueue_fold_nodup ps d h
  exact ⟨⟨hnd, fun x => List.nodup_iff_count_le_one.mp hnd x⟩,
    fun p => dirLookup_dirWrite _ _ _⟩

/-- C5, witness: two enqueues of job `j` leave one queue file. -/
theorem enqueue_direct_write_idempotent_w :
    (([⟨"j", none, none⟩, ⟨"j", some "h1", some true⟩].foldl
        (fun acc p => enqueue_job p acc) ([] : QueueDir)).map Prod.fst).count
      "queue/j.json" ≤ 1 :=
  ((enqueue_direct_write_idempotent.2 [] [⟨"j", none, none⟩, ⟨"j", some "h1", some true⟩]
    (by simp)).1.2) "queue/j.json"

/-! ## C6: host affinity in `agent_pop_next_job` -/

theorem pop_returns_unreleased (worker : String) :
    ∀ (q : List QueueEntry) (x : QueueEntry),
      (agent_pop_next_job worker q).1 = some x → releases worker x = false := by
  intro q
  induction q with
  | nil => simp [agent_pop_next_job]
  | cons e rest ih =>
    intro x h
    by_cases hr : releases worker e
    · simp only [agent_pop_next_job, if_pos hr] at h
      exact ih x h
    · simp only [agent_pop_next_job, if_neg hr] at h
      obtain rfl : e = x := by
        injection h
      exact Bool.eq_false_iff.mpr hr

theorem pop_keeps_released (worker : String) (x : QueueEntry)
    (hx : releases worker x = true) :
    ∀ q : List QueueEntry, x ∈ q → x ∈ (agent_pop_next_job worker q).2 := by
  intro q
  induction q with
  | nil => simp
  | cons e rest ih =>
    intro hmem
    by_cases hr : releases worker e
    · simp only [agent_pop_next_job, if_pos hr]
      rcases List.mem_cons.mp hmem with he | hrest
      · exact List.mem_cons.mpr (Or.inl he)
      · exact List.mem_cons.mpr (Or.inr (ih hrest))
    · simp only [agent_pop_next_job, if_neg hr]
      rcases List.mem_cons.mp hmem with he | hrest
      · exact absurd (he ▸ hx) hr
      · exact hrest

/-- C6: an entry with `require_host=true` and a (nonempty) preferred host
`H` is never returned by a pop for a worker `W ≠ H`, and it is still in
the queue, under its original name, after the call. -/
theorem pop_affinity_release (worker H : String) (e : QueueEntry) (q : List QueueEntry)
    (hmem : e ∈ q) (hpref : e.preferred_host = some H) (hH : H ≠ "")
    (hreq : e.require_host = some true) (hW : worker ≠ H) :
    (agent_pop_next_job worker q).1 ≠ some e ∧ e ∈ (agent_pop_next_job worker q).2 := by
  have hrel : releases worker e = true := by
    simp [releases, hpref, hreq, truthy, hH]
    exact fun h => hW h.symm
  refine ⟨?_, pop_keeps_released worker e hrel q hmem⟩
  intro habs
  have := pop_returns_unreleased worker q e habs
  rw [hrel] at this
  cases this

/-- C6, witness. -/
theorem pop_affinity_release_w :
    (agent_pop_next_job "w" [⟨"a", some "h1", some true⟩]).1 ≠
      some ⟨"a", some "h1", some true⟩ ∧
    (⟨"a", some "h1", some true⟩ : QueueEntry) ∈
      (agent_pop_next_job "w" [⟨"a", some "h1", some true⟩]).2 :=
  pop_affinity_release "w" "h1" ⟨"a", some "h1", some true⟩ [⟨"a", some "h1", some true⟩]
    (by simp) rfl (by decide) rfl (by decide)

/-! ## C7: worker agent terminal status post -/

/-- C7, counterexample: for a container exiting 0 the worker posts
terminal status `finished`, but the body has no `exit_code` key — so no
`GET /status` can report the exit code from it, contrary to the claim. -/
theorem run_job_exit_code_cx :
    lookupKey "status" (run_job_status_posts "j" "w" "cid" "name" 0).2 =
      some (Val.str "finished") ∧
    lookupKey "exit_code" (run_job_status_posts "j" "w" "cid" "name" 0).2 = none := by
  decide

/-- C7, amended: the worker maps exit code 0 to `finished` and any other
exit code to `failed` in its terminal status post, but that post carries
only `job_id`, `status` and `worker_id` — never the exit code (the RUNNING
post is the one carrying the container identifiers). -/
theorem run_job_terminal_post_spec (jobId workerId cid cname : String) (ec : Int) :
    lookupKey "status" (run_job_status_posts jobId workerId cid cname ec).2 =
      some (Val.str (if ec = 0 then "finished" else "failed")) ∧
    lookupKey "exit_code" (run_job_status_posts jobId workerId cid cname ec).2 = none ∧
    lookupKey "status" (run_job_status_posts jobId workerId cid cname ec).1 =
      some (Val.str "running") :=
  ⟨rfl, rfl, rfl⟩

/-! ## C8: config path validation in `launch_simulation` -/

/-- C8, counterexample: an absolute `config_path` is not refused — the
leading slash is stripped and the request proceeds, contrary to the
claim's 400. -/
theorem launch_absolute_path_cx :
    isAbs "/evil.yaml" = true ∧
    launch_config_path_check "/evil.yaml" = .ok "evil.yaml" :=
  ⟨by decide, rfl⟩

theorem dropWhile_slash_idem (l : List Char) :
    (l.dropWhile (fun c => c = '/')).dropWhile (fun c => c = '/') =
      l.dropWhile (fun c => c = '/') := by
  induction l with
  | nil => rfl
  | cons c cs ih =>
    by_cases h : c = '/'
    · simp [List.dropWhile_cons, h, ih]
    · simp [List.dropWhile_cons, h]

/-- C8, amended: a `config_path` whose normalized relative form begins
with `..` is refused with 400 before any job file or registry write (the
error branch carries no filesystem operations); but an absolute path is
not refused — its leading slashes are stripped and it is handled exactly
like the relative path that remains. -/
theorem launch_config_path_spec (jobId p : String) :
    (strLead (launch_relative_path p) ".." = true →
      launch_with_config_path jobId p = .error 400) ∧
    launch_with_config_path jobId p = launch_with_config_path jobId (lstripSlash p) := by
  constructor
  · intro h
    simp [launch_with_config_path, launch_config_path_check, h]
  · have hls : lstripSlash (lstripSlash p) = lstripSlash p := by
      unfold lstripSlash
      exact congrArg String.mk (dropWhile_slash_idem p.toList)
    have hrel : launch_relative_path (lstripSlash p) = launch_relative_path p := by
      unfold launch_relative_path
      rw [hls]
    simp [launch_with_config_path, launch_config_path_check, hrel]

/-- C8, witness: `config_path="../evil.yaml"` is refused with 400. -/
theorem launch_config_path_spec_w :
    launch_with_config_path "job1" "../evil.yaml" = .error 400 :=
  (launch_config_path_spec "job1" "../evil.yaml").1 (by decide)

/-! ## C9: non-forced ops guards -/

/-- C9, counterexample: a job whose on-disk status is the utility value
`not_found` is not terminal, so the claim says `ops_cancel_job` proceeds;
instead the non-forced status write raises an uncaught invalid-transition
`ValueError` (HTTP 500, not success). -/
theorem ops_cancel_not_found_cx :
    ops_cancel_job false (some ⟨"not_found", []⟩) "unknown" "ops_canceled" 0 =
      .invalidTransition "not_found" "canceled" := by decide

/-- C9, amended: without `force`, `requeue` 409s exactly on terminal or
RUNNING/STOP_REQUESTED states, `fail` exactly on terminal or
QUEUED/LAUNCHING, `cancel` exactly on terminal; each operation completes
in every other state except the utility statuses NOT_FOUND/UNKNOWN, where
the guard passes but the non-forced status write raises an uncaught
invalid-transition error. -/
theorem ops_guard_spec (j : JobStatus) (ex : List (String × Val)) (m : String)
    (ph pf : Option String) (reason : String) (now : Int) :
    (ops_requeue_job false (some ⟨j.value, ex⟩) m ph pf now =
      if j.isTerminal = true ∨ j = .running ∨ j = .stopRequested then .http409
      else if j = .notFound ∨ j = .unknown then .invalidTransition j.value "queued"
      else .ok "queued") ∧
    (ops_fail_job false (some ⟨j.value, ex⟩) m reason now =
      if j.isTerminal = true ∨ j = .queued ∨ j = .launching then .http409
      else if j = .notFound ∨ j = .unknown then .invalidTransition j.value "failed"
      else .ok "failed") ∧
    (ops_cancel_job false (some ⟨j.value, ex⟩) m reason now =
      if j.isTerminal = true then .http409
      else if j = .notFound ∨ j = .unknown then .invalidTransition j.value "canceled"
      else .ok "canceled") := by
  cases j <;> exact ⟨rfl, rfl, rfl⟩

/-! ## C10: deletion is total -/

/-- C10, counterexample: deleting a tracked DISPATCHED job whose status
file has a timestamp: the `_mark_stale_jobs()` sweep `delete_job` runs
first raises at the undeclared `settings.JOB_STATUS_TTL` and the call
fails before anything is deleted — `delete_job` does not succeed for
every tracked job regardless of status. -/
theorem delete_job_sweep_crash_cx :
    delete_job 1000 60 120 settings_JOB_STATUS_TTL (fun _ => some 900) (fun _ => some 100)
      ⟨["a"], [("a", ⟨"dispatched", some "w1", some "w1", some true⟩)]⟩ "a" =
      .attrError :=
  rfl

/-- C10, amended: `delete_job_by_id` returns `True` for every store and
job id (even with no directory and no registry entry), so `delete_job`
can never take its `Failed to delete job` 500 branch; but the reaper
sweep `delete_job` runs first escapes with `AttributeError` (undeclared
`settings.JOB_STATUS_TTL`) whenever a tracked job is in an active status
with a readable status timestamp, failing the call before any deletion.
When the sweep completes, deleting a tracked job succeeds — whatever its
status — and removes both the registry entry and the job directory. -/
theorem delete_job_total (now hbTTL grace : Int) (jsTTL : Option Int)
    (luOf hbOf : String → Option Int) (s : Store) (jobId : String) :
    (delete_job_by_id s jobId).2 = true ∧
    delete_job now hbTTL grace jsTTL luOf hbOf s jobId ≠ .http 500 ∧
    (mark_stale_sweep now hbTTL grace jsTTL luOf hbOf s.track = .ok () →
      s.track.any (fun kv => kv.1 = jobId) = true →
      ∃ r : Store, delete_job now hbTTL grace jsTTL luOf hbOf s jobId = .ok r ∧
        jobId ∉ r.dirs ∧ ∀ kv ∈ r.track, kv.1 ≠ jobId) := by
  refine ⟨rfl, ?_, ?_⟩
  · cases hsw : mark_stale_sweep now hbTTL grace jsTTL luOf hbOf s.track with
    | error e => simp [delete_job, hsw]
    | ok u =>
      by_cases h4 : s.track.any (fun kv => kv.1 = jobId) = true
      · simp [delete_job, hsw, h4, delete_job_by_id]
      · simp [delete_job, hsw, h4]
  · intro hsw h
    refine ⟨(delete_job_by_id s jobId).1, ?_, ?_, ?_⟩
    · simp [delete_job, hsw, h, delete_job_by_id]
    · simp [delete_job_by_id, List.mem_filter]
    · intro kv hkv
      simp only [delete_job_by_id, List.mem_filter] at hkv
      simpa using hkv.2

/-- C10, witness: deleting a tracked job in a terminal status (which the
sweep skips) succeeds and clears both stores. -/
theorem delete_job_total_w :
    ∃ r : Store,
      delete_job 1000 60 120 settings_JOB_STATUS_TTL (fun _ => some 900) (fun _ => none)
        ⟨["a"], [("a", ⟨"finished", none, none, none⟩)]⟩ "a" = .ok r ∧
      "a" ∉ r.dirs ∧ ∀ kv ∈ r.track, kv.1 ≠ "a" :=
  (delete_job_total 1000 60 120 settings_JOB_STATUS_TTL (fun _ => some 900) (fun _ => none)
    ⟨["a"], [("a", ⟨"finished", none, none, none⟩)]⟩ "a").2.2 rfl (by decide)

end Opeva
